import Mathlib

/-!
Verification of the AURA400 quantum emotional system
(`src/aura_live.py` and `src/aura400_prod.py`) against its
natural-language specification.

The numeric state is modelled over `ℚ` (Python floats are treated as exact
reals; all arithmetic in the program is closed-form field arithmetic), and
the trigonometric fallback statistics of `classical_quantum_simulation` are
modelled over `ℝ`.  Randomness (numpy `rng` draws, Dirichlet and normal
variates) is passed in explicitly as oracle arguments, as the spec itself
recommends ("Random number generation should take an explicit, injectable
source").
-/

namespace Aura

/-! ## Metrics aggregator (`aura_live.py`, `QuantumEmotionalCore`)

The metrics dictionary of `QuantumEmotionalCore.__init__` (lines 104-112),
restricted to the numeric fields the aggregator updates.
(`last_execution_time` and `start_time` are wall-clock bookkeeping never
read by the aggregator logic and are omitted.) -/
structure Metrics where
  executions : ℕ
  errors : ℕ
  avg_intensity : ℚ
  success_rate : ℚ
deriving Repr, DecidableEq

/-- Initial metrics from `QuantumEmotionalCore.__init__` (lines 105-112):
`executions = 0`, `errors = 0`, `avg_intensity = 0.0`,
`success_rate = 100.0`. -/
def initMetrics : Metrics :=
  { executions := 0, errors := 0, avg_intensity := 0, success_rate := 100 }

/-- The three ways one call of `execute_quantum_emotion_cycle` can go
(lines 191-222 of `aura_live.py`):

* `ok intensity` — the body of the `try` returns `success = True`: either
  `real_quantum_simulation` succeeded (and `_process_quantum_results` ran),
  or `qiskit_available` is false and `classical_quantum_simulation` ran.
  Both update `avg_intensity` identically, with `intensity` the freshly
  computed `quantum_intensity`.
* `simFail` — `real_quantum_simulation` raised internally; its own
  `except` clause (lines 238-240) logs the error and returns `False`, so
  the `try` body completes with `success = False`.
* `exceptional intensity` — an exception escaped the `try` body itself and
  the outer handler (lines 214-222) runs, then calls
  `classical_quantum_simulation` (which produced `intensity`). -/
inductive CycleOutcome where
  | ok (intensity : ℚ)
  | simFail
  | exceptional (intensity : ℚ)

/-- Running-mean update shared verbatim by `_process_quantum_results`
(lines 264-270) and `classical_quantum_simulation` (lines 295-301):
`if executions > 0: avg = (avg*(executions-1) + x)/executions else: avg = x`,
where `executions` is the counter value at the moment of the update. -/
def avgUpdate (executions : ℕ) (avg x : ℚ) : ℚ :=
  if 0 < executions then (avg * ((executions : ℚ) - 1) + x) / (executions : ℚ)
  else x

/-- One call of `execute_quantum_emotion_cycle` (lines 191-222), returning
the new metrics and the boolean the method returns.

* On `ok`: the simulation body updates `avg_intensity` first (using the
  pre-increment `executions`), then line 206 increments `executions`, and
  since `success` is true lines 208-211 recompute `success_rate`.
* On `simFail`: no statistics were produced, line 206 increments
  `executions`, and since `success` is false `success_rate` is left as it
  was; the method returns `False`.
* On `exceptional`: lines 216-217 increment `errors` then `executions`,
  lines 218-221 recompute `success_rate` with `max(1, executions)`, and
  line 222 returns the result of `classical_quantum_simulation()`, which
  updates `avg_intensity` using the already-incremented `executions` and
  returns `True`. -/
def cycle (s : Metrics) (o : CycleOutcome) : Metrics × Bool :=
  match o with
  | .ok x =>
      let avg := avgUpdate s.executions s.avg_intensity x
      let e := s.executions + 1
      ({ s with avg_intensity := avg, executions := e,
                success_rate := ((e : ℚ) - (s.errors : ℚ)) / (e : ℚ) * 100 },
       true)
  | .simFail =>
      ({ s with executions := s.executions + 1 }, false)
  | .exceptional x =>
      let e := s.executions + 1
      let r := s.errors + 1
      ({ s with executions := e, errors := r,
                success_rate := ((e : ℚ) - (r : ℚ)) / ((max 1 e : ℕ) : ℚ) * 100,
                avg_intensity := avgUpdate e s.avg_intensity x },
       true)

/-- Reachable counter states of the aggregator: the freshly initialised
state, any state obtained by one more evaluation cycle, and the state
after `reset` (line 330 re-runs `__init__`, restoring `initMetrics`). -/
inductive Reachable : Metrics → Prop
  | init : Reachable initMetrics
  | step (s : Metrics) (o : CycleOutcome) : Reachable s → Reachable (cycle s o).1
  | reset (s : Metrics) : Reachable s → Reachable initMetrics

/-! ## Claims about the aggregator counters -/

/-- C1: for every reachable state of the metrics aggregator — after any
sequence of successful, simulation-failing or exception-raising cycles and
resets — the invariant `errors ≤ executions` holds. -/
theorem claim_C1_errors_le_executions (s : Metrics) (h : Reachable s) :
    s.errors ≤ s.executions := by
  induction h with
  | init => exact Nat.le_refl 0
  | step s o _ ih =>
      cases o with
      | ok x => simpa [cycle] using Nat.le_succ_of_le ih
      | simFail => simpa [cycle] using Nat.le_succ_of_le ih
      | exceptional x => simpa [cycle] using Nat.succ_le_succ ih
  | reset s _ _ => exact Nat.le_refl 0

/-- Witness for C1 at a concrete reachable state: one exception-raising
cycle from the initial state gives `errors = 1 ≤ 1 = executions`. -/
theorem claim_C1_witness :
    (cycle initMetrics (.exceptional 0)).1.errors
      ≤ (cycle initMetrics (.exceptional 0)).1.executions :=
  claim_C1_errors_le_executions _ (Reachable.step _ _ Reachable.init)

/-- A concrete reachable state for C2: an exception-raising cycle followed
by a simulation-failing cycle, starting from the initial state. -/
def c2State : Metrics :=
  (cycle (cycle initMetrics (.exceptional 0)).1 .simFail).1

/-- C2 counterexample: `c2State` is reachable, has `executions = 2` and
`errors = 1`, yet its stored `success_rate` is `0`, not
`100 * (2 - 1) / 2 = 50`: a simulation-failing cycle increments
`executions` (line 206 of `aura_live.py`) without recomputing
`success_rate` (lines 207-211 run only when `success` is true), so the
stored field goes stale. -/
theorem claim_C2_counterexample :
    Reachable c2State ∧ c2State.executions = 2 ∧ c2State.errors = 1 ∧
      c2State.success_rate
        ≠ 100 * ((c2State.executions : ℚ) - (c2State.errors : ℚ))
            / (c2State.executions : ℚ) := by
  refine ⟨Reachable.step _ _ (Reachable.step _ _ Reachable.init),
    by norm_num [c2State, cycle, initMetrics],
    by norm_num [c2State, cycle, initMetrics],
    by norm_num [c2State, cycle, initMetrics, avgUpdate]⟩

/-- C2 amended: the stored `success_rate` is `100` in the initial (and
reset) state, where `executions = 0`; after every successful cycle and
every exception-raising cycle it equals
`100 × (executions − errors) / executions` (post-increment values); but a
simulation-failing cycle leaves `success_rate` unchanged while
incrementing `executions`. -/
theorem claim_C2_amended :
    initMetrics.executions = 0 ∧ initMetrics.success_rate = 100 ∧
    (∀ (s : Metrics) (x : ℚ),
      ((cycle s (.ok x)).1).success_rate
        = 100 * ((((cycle s (.ok x)).1).executions : ℚ)
                  - (((cycle s (.ok x)).1).errors : ℚ))
            / (((cycle s (.ok x)).1).executions : ℚ)) ∧
    (∀ (s : Metrics) (x : ℚ),
      ((cycle s (.exceptional x)).1).success_rate
        = 100 * ((((cycle s (.exceptional x)).1).executions : ℚ)
                  - (((cycle s (.exceptional x)).1).errors : ℚ))
            / (((cycle s (.exceptional x)).1).executions : ℚ)) ∧
    (∀ s : Metrics, ((cycle s .simFail).1).success_rate = s.success_rate) := by
  refine ⟨rfl, rfl, ?_, ?_, fun s => rfl⟩
  · intro s x
    simp only [cycle]
    ring
  · intro s x
    simp only [cycle, Nat.max_eq_right (Nat.succ_le_succ (Nat.zero_le _))]
    ring

/-- C3 counterexample: on a cycle where the quantum simulation raises (the
`simFail` outcome — `real_quantum_simulation` catches its own exception at
lines 238-240 and returns `False`), the `errors` counter is NOT
incremented and no classical fallback statistics are computed for that
cycle: from the initial state, `errors` stays `0` (the claim requires `1`)
and `avg_intensity` is untouched, while `executions` becomes `1`. -/
theorem claim_C3_counterexample :
    (cycle initMetrics .simFail).1.errors = 0 ∧
    (cycle initMetrics .simFail).1.errors ≠ initMetrics.errors + 1 ∧
    (cycle initMetrics .simFail).1.avg_intensity = initMetrics.avg_intensity ∧
    (cycle initMetrics .simFail).2 = false := by
  exact ⟨rfl, by decide, rfl, rfl⟩

/-- C3 amended: when the quantum simulation raises, the error is caught
and logged inside `real_quantum_simulation` itself, which returns `False`;
the cycle then increments only `executions` — `errors`, `success_rate` and
`avg_intensity` are unchanged and no classical fallback runs that cycle —
and the method returns `False` instead of propagating the exception.  Only
an exception escaping the whole `try` body reaches the outer handler,
which increments `errors` and `executions`, recomputes `success_rate`, and
then runs the classical fallback (returning `True`).  In neither case does
an error propagate past `execute_quantum_emotion_cycle`. -/
theorem claim_C3_amended (s : Metrics) (x : ℚ) :
    (cycle s .simFail).1.executions = s.executions + 1 ∧
    (cycle s .simFail).1.errors = s.errors ∧
    (cycle s .simFail).1.success_rate = s.success_rate ∧
    (cycle s .simFail).1.avg_intensity = s.avg_intensity ∧
    (cycle s .simFail).2 = false ∧
    (cycle s (.exceptional x)).1.errors = s.errors + 1 ∧
    (cycle s (.exceptional x)).1.avg_intensity
      = avgUpdate (s.executions + 1) s.avg_intensity x ∧
    (cycle s (.exceptional x)).2 = true :=
  ⟨rfl, rfl, rfl, rfl, rfl, rfl, rfl, rfl⟩

/-- A concrete state for C5: a successful cycle with intensity `0`
followed by a successful cycle with intensity `1`, from the initial
state. -/
def c5State : Metrics :=
  (cycle (cycle initMetrics (.ok 0)).1 (.ok 1)).1

/-- C5 counterexample: after the two cycles of `c5State` the code stores
`avg_intensity = 1`, but the claimed incremental running mean over the
post-increment counter (`executions = 2`, previous average `0`, new
intensity `1`) is `(0 × (2 − 1) + 1) / 2 = 1/2`.  The simulation updates
`avg_intensity` before `executions += 1`, so it divides by the
pre-increment counter. -/
theorem claim_C5_counterexample :
    c5State.executions = 2 ∧
    (cycle initMetrics (.ok 0)).1.avg_intensity = 0 ∧
    c5State.avg_intensity = 1 ∧
    c5State.avg_intensity
      ≠ ((cycle initMetrics (.ok 0)).1.avg_intensity * ((c5State.executions : ℚ) - 1) + 1)
          / (c5State.executions : ℚ) := by
  refine ⟨by norm_num [c5State, cycle, initMetrics],
    by norm_num [cycle, initMetrics, avgUpdate],
    by norm_num [c5State, cycle, initMetrics, avgUpdate],
    by norm_num [c5State, cycle, initMetrics, avgUpdate]⟩

/-- C5 amended: every cycle increments `executions` by exactly one.  On
successful cycles `avg_intensity` is recomputed before the increment,
using the pre-increment counter `n = executions`: it becomes the new
intensity itself when `n = 0` and `(avg_intensity × (n − 1) + x) / n`
otherwise.  Only on the exception path (where the increment happens before
the fallback runs) is the post-increment counter used, as the claim
describes. -/
theorem claim_C5_amended (s : Metrics) (x : ℚ) :
    (cycle s (.ok x)).1.executions = s.executions + 1 ∧
    (cycle s .simFail).1.executions = s.executions + 1 ∧
    (cycle s (.exceptional x)).1.executions = s.executions + 1 ∧
    (cycle s (.ok x)).1.avg_intensity
      = (if s.executions = 0 then x
         else (s.avg_intensity * ((s.executions : ℚ) - 1) + x) / (s.executions : ℚ)) ∧
    (cycle s (.exceptional x)).1.avg_intensity
      = (s.avg_intensity * ((((s.executions : ℕ) + 1 : ℕ) : ℚ) - 1) + x)
          / (((s.executions : ℕ) + 1 : ℕ) : ℚ) := by
  refine ⟨rfl, rfl, rfl, ?_, ?_⟩
  · by_cases h : s.executions = 0
    · simp [cycle, avgUpdate, h]
    · simp [cycle, avgUpdate, h, Nat.pos_of_ne_zero h]
  · simp [cycle, avgUpdate]

/-! ## Emotional state update (`update_emotional_state`, lines 304-314)

The numpy draws are oracle inputs: `noise` is the raw `rng.random(8)` draw
(each entry in `[0,1)`), scaled by `0.1` inside the function exactly as in
the source; the `rng.dirichlet(np.ones(8))` draw of the degenerate branch
is modelled by its standard construction, normalising eight strictly
positive Gamma(1) variates `gammas`. -/

/-- Transcription of `update_emotional_state`:
`base_state = emotional_vector + rng.random(8) * 0.1`; if
`np.sum(base_state) > 0` renormalise `base_state`, else replace with a
Dirichlet(1,...,1) draw (normalised positive `gammas`). -/
def update_emotional_state (emotional_vector noise gammas : List ℚ) : List ℚ :=
  let base := List.zipWith (fun a b => a + b * (1 / 10)) emotional_vector noise
  if 0 < base.sum then base.map (fun x => x / base.sum)
  else gammas.map (fun g => g / gammas.sum)

/-- Dividing every entry of a list by a constant divides its sum. -/
theorem sum_map_div (l : List ℚ) (s : ℚ) :
    (l.map (fun x => x / s)).sum = l.sum / s := by
  induction l with
  | nil => simp
  | cons a t ih => simp [ih, add_div]

/-- Entrywise `a + b * (1/10)` over two entrywise-nonnegative lists is
entrywise nonnegative. -/
theorem zipWith_noise_nonneg (l₁ l₂ : List ℚ)
    (h₁ : ∀ x ∈ l₁, 0 ≤ x) (h₂ : ∀ x ∈ l₂, 0 ≤ x) :
    ∀ x ∈ List.zipWith (fun a b => a + b * (1 / 10)) l₁ l₂, 0 ≤ x := by
  induction l₁ generalizing l₂ with
  | nil => simp
  | cons a t ih =>
      cases l₂ with
      | nil => simp
      | cons b u =>
          intro x hx
          rcases List.mem_cons.mp hx with h | h
          · subst h
            have ha := h₁ a (List.mem_cons_self a t)
            have hb := h₂ b (List.mem_cons_self b u)
            positivity
          · exact ih u (fun y hy => h₁ y (List.mem_cons_of_mem a hy))
              (fun y hy => h₂ y (List.mem_cons_of_mem b hy)) x h

/-- Postcondition of `update_emotional_state`: its output always has
eight entries, every entry is nonnegative and the entries sum to exactly
1 — including the degenerate branch where the pre-normalisation sum is
`≤ 0`, replaced by a Dirichlet(1,...,1) draw.  The hypotheses record what
holds of the inputs in the program: the vectors have eight entries,
`emotional_vector` is entrywise nonnegative (it is only ever a
`rng.random(8)` draw or a basis vector set by `api_feel`), the raw noise
draw is entrywise nonnegative, and the gamma variates behind the
Dirichlet draw are strictly positive. -/
theorem update_emotional_state_distribution
    (ev noise gammas : List ℚ)
    (hev : ev.length = 8) (hnoise : noise.length = 8) (hg : gammas.length = 8)
    (hev0 : ∀ x ∈ ev, 0 ≤ x) (hn0 : ∀ x ∈ noise, 0 ≤ x)
    (hg0 : ∀ g ∈ gammas, 0 < g) :
    (update_emotional_state ev noise gammas).length = 8 ∧
    (∀ x ∈ update_emotional_state ev noise gammas, 0 ≤ x) ∧
    (update_emotional_state ev noise gammas).sum = 1 := by
  unfold update_emotional_state
  set base := List.zipWith (fun a b => a + b * (1 / 10)) ev noise with hbase
  by_cases hpos : 0 < base.sum
  · have hlen : base.length = 8 := by
      rw [hbase, List.length_zipWith, hev, hnoise]
      exact Nat.min_self 8
    refine ⟨?_, ?_, ?_⟩
    · simp [hpos, hlen]
    · intro x hx
      simp only [if_pos hpos, List.mem_map] at hx
      obtain ⟨y, hy, rfl⟩ := hx
      exact div_nonneg (zipWith_noise_nonneg ev noise hev0 hn0 y hy) hpos.le
    · simp only [if_pos hpos, sum_map_div]
      exact div_self (ne_of_gt hpos)
  · have hgsum : 0 < gammas.sum := by
      refine List.sum_pos gammas hg0 ?_
      intro hnil
      rw [hnil] at hg
      simp at hg
    refine ⟨?_, ?_, ?_⟩
    · simp [hpos, hg]
    · intro x hx
      simp only [if_neg hpos, List.mem_map] at hx
      obtain ⟨g, hgmem, rfl⟩ := hx
      exact div_nonneg (hg0 g hgmem).le hgsum.le
    · simp only [if_neg hpos, sum_map_div]
      exact div_self (ne_of_gt hgsum)

/-! ## Full core state and `reset` (`aura_live.py`, lines 83-117, 328-331)

The fields of `QuantumEmotionalCore` that the reset claims concern.
`reset` (line 330) simply re-runs `__init__`, which sets
`emotion_state = np.zeros(8)` (line 90),
`emotional_vector = rng.random(8)` (line 94),
`session_id = str(uuid.uuid4())[:8]` (line 104) and the metrics of
`initMetrics` (lines 105-112).  The fresh uuid string and the fresh
`rng.random(8)` draw are oracle inputs. -/
structure CoreState where
  session_id : String
  metrics : Metrics
  emotion_state : List ℚ
  emotional_vector : List ℚ
deriving Repr, DecidableEq

/-- First eight characters of a string: the slice `str(uuid.uuid4())[:8]`
of line 104 (Python string slicing takes code points, i.e. characters). -/
def sessionOf (uuid : String) : String :=
  String.mk (uuid.toList.take 8)

/-- State produced by `QuantumEmotionalCore.__init__` given the uuid
string drawn at line 104 and the `rng.random(8)` draw of line 94. -/
def initCore (uuid : String) (draw : List ℚ) : CoreState :=
  { session_id := sessionOf uuid
    metrics := initMetrics
    emotion_state := List.replicate 8 0
    emotional_vector := draw }

/-- Transcription of `reset` (lines 328-331): it re-runs `__init__` with
fresh random draws, discarding the previous state entirely. -/
def reset (_prev : CoreState) (uuid : String) (draw : List ℚ) : CoreState :=
  initCore uuid draw

/-- One call of `execute_quantum_emotion_cycle` on the full core state.
The metrics evolve as in `cycle`; `update_emotional_state` is called (with
the current `emotional_vector`, a fresh `rng.random(8)` noise draw and, for
its degenerate branch, a fresh Dirichlet draw) on the `ok` path — by
`_process_quantum_results` at line 261 or `classical_quantum_simulation`
at line 292 — and on the `exceptional` path, whose handler ends by calling
`classical_quantum_simulation` (line 222).  On a `simFail` cycle
`real_quantum_simulation` raises before `_process_quantum_results`, so no
state update runs and `emotion_state` is left as it was.  No cycle path
modifies `emotional_vector` (only `__init__` and `api_feel` assign
it). -/
def coreCycle (s : CoreState) (o : CycleOutcome) (noise gammas : List ℚ) :
    CoreState × Bool :=
  match o with
  | .simFail =>
      ({ s with metrics := (cycle s.metrics .simFail).1 },
       (cycle s.metrics .simFail).2)
  | o =>
      ({ s with metrics := (cycle s.metrics o).1,
                emotion_state :=
                  update_emotional_state s.emotional_vector noise gammas },
       (cycle s.metrics o).2)

/-- A concrete core state before the reset of the C8 counterexample. -/
def c8Old : CoreState := initCore "0a1b2c3d-4e5f" (List.replicate 8 (1 / 2))

/-- The C8 counterexample state: `c8Old` after one concrete reset. -/
def c8New : CoreState := reset c8Old "deadbeef-9876" (List.replicate 8 (1 / 4))

/-- C8 counterexample: after a reset the EmotionState is NOT restored to a
fresh renormalised random distribution — `__init__` (line 90) sets
`emotion_state = np.zeros(8)`, so at the concrete reset `c8New` the
EmotionState is the all-zeros vector and its entries sum to `0`, not
`1`. -/
theorem claim_C8_counterexample :
    c8New.emotion_state = List.replicate 8 0 ∧
    c8New.emotion_state.sum = 0 ∧
    c8New.emotion_state.sum ≠ 1 := by
  refine ⟨rfl, by simp [c8New, reset, initCore], by simp [c8New, reset, initCore]⟩

/-- C8 amended: after a reset, `executions = 0`, `errors = 0`, the session
identifier is the first eight characters of the freshly generated uuid
(hence differs from the prior identifier whenever the fresh prefix does),
and the `emotional_vector` is the fresh uniform random draw — but the
EmotionState itself is set to the all-zeros vector, becoming a
distribution only on the next cycle. -/
theorem claim_C8_amended (s : CoreState) (uuid : String) (draw : List ℚ)
    (h : sessionOf uuid ≠ s.session_id) :
    (reset s uuid draw).metrics.executions = 0 ∧
    (reset s uuid draw).metrics.errors = 0 ∧
    (reset s uuid draw).session_id = sessionOf uuid ∧
    (reset s uuid draw).session_id ≠ s.session_id ∧
    (reset s uuid draw).emotion_state = List.replicate 8 0 ∧
    (reset s uuid draw).emotional_vector = draw :=
  ⟨rfl, rfl, rfl, h, rfl, rfl⟩

/-- Witness for C8 at the concrete reset of the counterexample state:
the fresh session identifier differs from the previous one. -/
theorem claim_C8_witness :
    (reset c8Old "deadbeef-9876" (List.replicate 8 (1 / 4))).metrics.executions = 0 ∧
    (reset c8Old "deadbeef-9876" (List.replicate 8 (1 / 4))).session_id
      ≠ c8Old.session_id :=
  ⟨(claim_C8_amended c8Old "deadbeef-9876" (List.replicate 8 (1 / 4)) (by decide)).1,
   (claim_C8_amended c8Old "deadbeef-9876" (List.replicate 8 (1 / 4)) (by decide)).2.2.2.1⟩

/-- A concrete core state for C4: a freshly initialised core whose very
first evaluation cycle is a simulation failure. -/
def c4State : CoreState :=
  (coreCycle (initCore "11112222-3333" (List.replicate 8 (1 / 2)))
    .simFail [] []).1

/-- C4 counterexample: the claim quantifies over every evaluation cycle,
but a simulation-failing cycle never reaches `update_emotional_state`
(`real_quantum_simulation` raises before `_process_quantum_results` and no
fallback runs, lines 224-240).  Right after `__init__` the EmotionState is
`np.zeros(8)` (line 90), so after the concrete sim-failing first cycle
`c4State` the EmotionState is still the all-zeros vector: its entries sum
to `0`, not `1`. -/
theorem claim_C4_counterexample :
    c4State.emotion_state = List.replicate 8 0 ∧
    c4State.emotion_state.sum = 0 ∧
    c4State.emotion_state.sum ≠ 1 := by
  refine ⟨rfl, by simp [c4State, coreCycle, initCore],
    by simp [c4State, coreCycle, initCore]⟩

/-- C4 amended: after every evaluation cycle that reaches the emotional
state update — a successful simulation, a classical-fallback cycle, or an
exception-recovery cycle, i.e. every cycle other than a
simulation-failing one — every entry of the EmotionState is nonnegative
and the eight entries sum to exactly 1, including the degenerate branch
where the pre-normalisation sum is `≤ 0` (replaced by a Dirichlet(1,...,1)
draw); a simulation-failing cycle leaves the EmotionState unchanged.  The
hypotheses record what holds of the inputs in the program:
`emotional_vector` is entrywise nonnegative (a `rng.random(8)` draw or a
basis vector from `api_feel`), the raw noise draw is entrywise
nonnegative, and the gamma variates behind the Dirichlet draw are strictly
positive. -/
theorem claim_C4_amended (s : CoreState) (o : CycleOutcome)
    (noise gammas : List ℚ)
    (hev : s.emotional_vector.length = 8)
    (hnoise : noise.length = 8) (hg : gammas.length = 8)
    (hev0 : ∀ x ∈ s.emotional_vector, 0 ≤ x) (hn0 : ∀ x ∈ noise, 0 ≤ x)
    (hg0 : ∀ g ∈ gammas, 0 < g) (ho : o ≠ .simFail) :
    ((coreCycle s o noise gammas).1.emotion_state).length = 8 ∧
    (∀ x ∈ (coreCycle s o noise gammas).1.emotion_state, 0 ≤ x) ∧
    ((coreCycle s o noise gammas).1.emotion_state).sum = 1 ∧
    (∀ (s₂ : CoreState) (noise₂ gammas₂ : List ℚ),
      (coreCycle s₂ .simFail noise₂ gammas₂).1.emotion_state
        = s₂.emotion_state) := by
  have main := update_emotional_state_distribution s.emotional_vector
    noise gammas hev hnoise hg hev0 hn0 hg0
  cases o with
  | ok x => exact ⟨main.1, main.2.1, main.2.2, fun _ _ _ => rfl⟩
  | simFail => exact absurd rfl ho
  | exceptional x => exact ⟨main.1, main.2.1, main.2.2, fun _ _ _ => rfl⟩

/-- Witness for C4 at a concrete successful cycle exercising the
degenerate branch: zero emotional vector and zero noise force the
Dirichlet replacement, which with unit gamma variates yields the uniform
distribution. -/
theorem claim_C4_witness :
    ((coreCycle ⟨"s1", initMetrics, List.replicate 8 0, List.replicate 8 0⟩
        (.ok 0) (List.replicate 8 0) (List.replicate 8 1)).1.emotion_state).length
      = 8 ∧
    (∀ x ∈ (coreCycle ⟨"s1", initMetrics, List.replicate 8 0, List.replicate 8 0⟩
        (.ok 0) (List.replicate 8 0) (List.replicate 8 1)).1.emotion_state,
      0 ≤ x) ∧
    ((coreCycle ⟨"s1", initMetrics, List.replicate 8 0, List.replicate 8 0⟩
        (.ok 0) (List.replicate 8 0) (List.replicate 8 1)).1.emotion_state).sum
      = 1 := by
  have h := claim_C4_amended
    ⟨"s1", initMetrics, List.replicate 8 0, List.replicate 8 0⟩
    (.ok 0) (List.replicate 8 0) (List.replicate 8 1)
    (by simp) (by simp) (by simp)
    (by intro x hx; rw [List.eq_of_mem_replicate hx])
    (by intro x hx; rw [List.eq_of_mem_replicate hx])
    (by intro g hg; rw [List.eq_of_mem_replicate hg]; norm_num)
    (by intro h; exact CycleOutcome.noConfusion h)
  exact ⟨h.1, h.2.1, h.2.2.1⟩

/-! ## Emotion encoder (`aura400_prod.py`, `Aura400Circuit.emotion_to_params`)

The `EMOTIONS` base-value table (lines 41-50) and the encoder
(lines 194-203).  The draw of `rng.normal(loc, scale=0.05, size=n_cells)`
is modelled by its standard-normal decomposition `loc + 0.05 * z_i`, with
the standard-normal variates `z` an oracle argument. -/

/-- The base-value table `EMOTIONS` of `aura400_prod.py` (lines 41-50). -/
def EMOTIONS : List (String × ℚ) :=
  [("alegria", 9 / 10), ("tristeza", 1 / 10), ("miedo", 2 / 10),
   ("ira", 3 / 10), ("sorpresa", 8 / 10), ("asco", 15 / 100),
   ("confianza", 7 / 10), ("anticipacion", 6 / 10)]

/-- Python's `str.lower()` on the label, character by character (the
emotion labels are plain ASCII). -/
def lowerStr (s : String) : String :=
  String.mk (s.toList.map Char.toLower)

/-- Base value of an emotion label:
`EMOTIONS.get(emotion.lower(), 0.5)` (line 199). -/
def emotionBase (emotion : String) : ℚ :=
  (EMOTIONS.lookup (lowerStr emotion)).getD (1 / 2)

/-- Transcription of `np.clip(x, 0, 1)` for one scalar. -/
def clip01 (x : ℚ) : ℚ := max 0 (min x 1)

/-- The vector built at line 202 from a given base value:
`np.clip(rng.normal(loc=base*intensity, scale=0.05, size=n_cells), 0, 1)`,
with the normal draw written as `base*intensity + 0.05 * z i`. -/
def paramsFromBase (n_cells : ℕ) (base intensity : ℚ) (z : ℕ → ℚ) : List ℚ :=
  List.ofFn (fun i : Fin n_cells => clip01 (base * intensity + (5 / 100) * z i))

/-- Transcription of `emotion_to_params` (lines 194-203): look the label
up in `EMOTIONS` (falling back to the neutral `0.5`), then draw the
clipped normal vector.  The function is total: no label raises an
error. -/
def emotion_to_params (n_cells : ℕ) (emotion : String) (intensity : ℚ)
    (z : ℕ → ℚ) : List ℚ :=
  paramsFromBase n_cells (emotionBase emotion) intensity z

/-- C6: for every emotion label, every intensity in `[0,1]` and every
normal draw, the encoder returns a vector of length `n_cells` whose every
element lies in `[0,1]` (clipping makes the bounds unconditional). -/
theorem claim_C6_encoder_range (n_cells : ℕ) (emotion : String)
    (intensity : ℚ) (z : ℕ → ℚ)
    (h0 : 0 ≤ intensity) (h1 : intensity ≤ 1) :
    (emotion_to_params n_cells emotion intensity z).length = n_cells ∧
    ∀ x ∈ emotion_to_params n_cells emotion intensity z, 0 ≤ x ∧ x ≤ 1 := by
  constructor
  · simp [emotion_to_params, paramsFromBase]
  · intro x hx
    simp only [emotion_to_params, paramsFromBase, List.mem_ofFn] at hx
    obtain ⟨i, rfl⟩ := hx
    unfold clip01
    constructor
    · exact le_max_left 0 _
    · exact max_le (by norm_num) (min_le_right _ 1)

/-- Witness for C6 at the supported label `alegria`, intensity `1`,
four cells and the zero draw: the encoder output is the constant vector
`9/10`, of length 4 with entries in `[0,1]`. -/
theorem claim_C6_witness :
    (emotion_to_params 4 "alegria" 1 (fun _ => 0)).length = 4 ∧
    ∀ x ∈ emotion_to_params 4 "alegria" 1 (fun _ => 0), 0 ≤ x ∧ x ≤ 1 :=
  claim_C6_encoder_range 4 "alegria" 1 (fun _ => 0) (by norm_num) (by norm_num)

/-- C7: for an unrecognised emotion label the encoder raises no error and
behaves exactly as if the neutral base value `0.5` had been looked up:
with the same random draw the outputs are equal lists (and hence drawn
from the same clipped-normal distribution with mean `0.5 × intensity` and
standard deviation `0.05`). -/
theorem claim_C7_unknown_emotion_neutral (n_cells : ℕ) (emotion : String)
    (intensity : ℚ) (z : ℕ → ℚ)
    (h : EMOTIONS.lookup (lowerStr emotion) = none) :
    emotion_to_params n_cells emotion intensity z
      = paramsFromBase n_cells (1 / 2) intensity z := by
  unfold emotion_to_params emotionBase
  rw [h]
  rfl

/-- Witness for C7 at the unrecognised label `felicidad`: the encoder
output coincides with the neutral-base output. -/
theorem claim_C7_witness :
    emotion_to_params 3 "felicidad" 1 (fun _ => 0)
      = paramsFromBase 3 (1 / 2) 1 (fun _ => 0) :=
  claim_C7_unknown_emotion_neutral 3 "felicidad" 1 (fun _ => 0) (by decide)

/-! ## Circuit execution guard (`aura400_prod.py`, `execute_circuit`)

The state of `Aura400Circuit` relevant to `execute_circuit`
(lines 140-176) and the result dictionary it stores.  The quantum backend
(`transpile` + `self.backend.run` + `result.get_statevector()`) is an
external library call, modelled as an oracle mapping the bound parameter
values and shot count to the resulting statevector (a list of complex
amplitudes as real/imaginary pairs). -/

/-- Result dictionary of `execute_circuit` (lines 156-167):
`state_vector` plus the numeric metrics derived from it (`fidelity` is
`|state_vector[0]|²`, line 155; the remaining metric fields echo the
configuration and arguments). -/
structure Aura400Result where
  state_vector : List (ℚ × ℚ)
  fidelity : ℚ
  shots : ℕ
  n_cells : ℕ
  qubits_per_cell : ℕ
  total_qubits : ℕ
deriving Repr, DecidableEq

/-- Mutable attributes of `Aura400Circuit` used by `execute_circuit`
(`__init__`, lines 96-104). -/
structure Aura400State where
  n_cells : ℕ
  qubits_per_cell : ℕ
  last_result : Option Aura400Result
deriving Repr, DecidableEq

/-- Error raised by `execute_circuit` on a parameter-count mismatch
(line 148) and re-raised by its `except` clause (line 176). -/
inductive ExecError where
  | valueError (expected got : ℕ)
deriving Repr, DecidableEq

/-- Squared magnitude of the first amplitude,
`float(np.abs(state_vector[0])**2)` (line 155).  The backend oracle
always returns a non-empty statevector; the `[]` case supplies the
(unreachable) default `0`. -/
def fidelityOf (sv : List (ℚ × ℚ)) : ℚ :=
  match sv with
  | [] => 0
  | a :: _ => a.1 ^ 2 + a.2 ^ 2

/-- Transcription of `execute_circuit` (lines 140-176).  It first checks
`len(parameter_values) != self.n_cells` and raises `ValueError` (line
148) — before `build_circuit`, binding, transpilation or the backend run —
so on that path the backend oracle is never consulted and `last_result`
is left unchanged.  Otherwise it runs the backend, derives the metrics
and stores the new `last_result`.  The returned pair is the state after
the call together with the raised error or the returned dictionary. -/
def execute_circuit (st : Aura400State) (parameter_values : List ℚ)
    (shots : ℕ) (backend : List ℚ → ℕ → List (ℚ × ℚ)) :
    Aura400State × Except ExecError Aura400Result :=
  if parameter_values.length ≠ st.n_cells then
    (st, .error (.valueError st.n_cells parameter_values.length))
  else
    let sv := backend parameter_values shots
    let res : Aura400Result :=
      { state_vector := sv
        fidelity := fidelityOf sv
        shots := shots
        n_cells := st.n_cells
        qubits_per_cell := st.qubits_per_cell
        total_qubits := st.n_cells * st.qubits_per_cell }
    ({ st with last_result := some res }, .ok res)

/-- C10: when the parameter vector length differs from the configured
`n_cells`, `execute_circuit` raises `ValueError`, the stored `last_result`
(indeed the whole state) is unchanged, and no simulation is executed — the
outcome does not depend on the backend oracle at all. -/
theorem claim_C10_length_guard (st : Aura400State) (params : List ℚ)
    (shots : ℕ) (b₁ b₂ : List ℚ → ℕ → List (ℚ × ℚ))
    (h : params.length ≠ st.n_cells) :
    (execute_circuit st params shots b₁).1 = st ∧
    (execute_circuit st params shots b₁).1.last_result = st.last_result ∧
    (execute_circuit st params shots b₁).2
      = .error (.valueError st.n_cells params.length) ∧
    execute_circuit st params shots b₁ = execute_circuit st params shots b₂ := by
  unfold execute_circuit
  rw [if_pos h, if_pos h]
  exact ⟨rfl, rfl, rfl, rfl⟩

/-- Witness for C10: a circuit configured with two cells, called with a
single parameter and two different backend oracles. -/
theorem claim_C10_witness :
    (execute_circuit ⟨2, 4, none⟩ [1] 1024 (fun _ _ => [(1, 0)])).2
      = .error (.valueError 2 1) ∧
    execute_circuit ⟨2, 4, none⟩ [1] 1024 (fun _ _ => [(1, 0)])
      = execute_circuit ⟨2, 4, none⟩ [1] 1024 (fun _ _ => []) :=
  ⟨(claim_C10_length_guard ⟨2, 4, none⟩ [1] 1024 (fun _ _ => [(1, 0)])
      (fun _ _ => []) (by decide)).2.2.1,
   (claim_C10_length_guard ⟨2, 4, none⟩ [1] 1024 (fun _ _ => [(1, 0)])
      (fun _ _ => []) (by decide)).2.2.2⟩

/-! ## Phase coherence (`aura_live.py`, lines 248-250 and 286-289)

The two ways `phase_coherence` is computed.  In simulation mode
(`_process_quantum_results`) it is the purity
`np.real(np.trace(rho @ rho))` of the outer-product density matrix
`rho = np.outer(statevector, conj(statevector))`; in fallback mode
(`classical_quantum_simulation`) it is
`np.angle(complex(cos(t*0.1), sin(t*0.1)))`.  These are genuinely real- and
complex-valued computations, so this part of the model lives over `ℝ` and
`ℂ`. -/

/-- Transcription of `np.angle` on a complex number given by its real and
imaginary parts: the principal argument. -/
noncomputable def npAngle (re im : ℝ) : ℝ :=
  Complex.arg (Complex.mk re im)

/-- Fallback-mode coherence (lines 287-289 with `base_freq = 0.1`):
`np.angle(complex(np.cos(t * 0.1), np.sin(t * 0.1)))` at wall-clock time
`t`. -/
noncomputable def classicalPhaseCoherence (t : ℝ) : ℝ :=
  npAngle (Real.cos (t * (1 / 10))) (Real.sin (t * (1 / 10)))

/-- The density matrix `rho = np.outer(statevector.data,
np.conj(statevector.data))` of line 249. -/
noncomputable def rhoOf (n : ℕ) (ψ : Fin n → ℂ) : Matrix (Fin n) (Fin n) ℂ :=
  Matrix.of fun i j => ψ i * (starRingEnd ℂ) (ψ j)

/-- Simulation-mode coherence (line 250):
`float(np.real(np.trace(rho @ rho)))`. -/
noncomputable def simPhaseCoherence (n : ℕ) (ψ : Fin n → ℂ) : ℝ :=
  (Matrix.trace (rhoOf n ψ * rhoOf n ψ)).re

/-- The purity of an outer-product density matrix is the square of the
statevector's squared norm. -/
theorem simPhaseCoherence_eq (n : ℕ) (ψ : Fin n → ℂ) :
    simPhaseCoherence n ψ
      = (Finset.univ.sum fun i => Complex.normSq (ψ i)) ^ 2 := by
  have key : Matrix.trace (rhoOf n ψ * rhoOf n ψ)
      = (Finset.univ.sum fun i => ψ i * (starRingEnd ℂ) (ψ i))
          * (Finset.univ.sum fun j => ψ j * (starRingEnd ℂ) (ψ j)) := by
    rw [Finset.sum_mul_sum]
    simp only [Matrix.trace, Matrix.diag, Matrix.mul_apply, rhoOf,
      Matrix.of_apply]
    refine Finset.sum_congr rfl fun i _ => Finset.sum_congr rfl fun j _ => ?_
    ring
  have hconj : (Finset.univ.sum fun i => ψ i * (starRingEnd ℂ) (ψ i))
      = ((Finset.univ.sum fun i => Complex.normSq (ψ i) : ℝ) : ℂ) := by
    rw [Complex.ofReal_sum]
    exact Finset.sum_congr rfl fun i _ => Complex.mul_conj (ψ i)
  rw [simPhaseCoherence, key, hconj, ← Complex.ofReal_mul, Complex.ofReal_re,
    sq]

/-- C9 counterexample: in fallback mode the coherence statistic is NOT
confined to `[0,1]`.  At wall-clock time `t = 30` the angle computed is
`30 × 0.1 = 3`, which lies in the principal range `(-π, π]` and exceeds
`1`. -/
theorem claim_C9_counterexample :
    ¬ (0 ≤ classicalPhaseCoherence 30 ∧ classicalPhaseCoherence 30 ≤ 1) := by
  have h3 : classicalPhaseCoherence 30 = 3 := by
    unfold classicalPhaseCoherence npAngle
    have ht : (30 : ℝ) * (1 / 10) = 3 := by norm_num
    rw [ht]
    have hmk : Complex.mk (Real.cos 3) (Real.sin 3)
        = Complex.cos (3 : ℝ) + Complex.sin (3 : ℝ) * Complex.I := by
      rw [Complex.mk_eq_add_mul_I, Complex.ofReal_cos, Complex.ofReal_sin]
    rw [hmk]
    refine Complex.arg_cos_add_sin_mul_I ⟨?_, ?_⟩
    · have := Real.pi_pos
      linarith
    · exact Real.pi_gt_three.le
  intro h
  rw [h3] at h
  linarith [h.2]

/-- C9 amended: in simulation mode the coherence statistic equals the
square of the statevector's squared norm, hence equals `1` (and in
particular lies in `[0,1]`) for the normalised statevectors the backend
returns; in fallback mode it is the principal argument of a unit complex
number and lies in `(-π, π]`, not `[0,1]`. -/
theorem claim_C9_amended :
    (∀ (n : ℕ) (ψ : Fin n → ℂ),
        (Finset.univ.sum fun i => Complex.normSq (ψ i)) = 1 →
        simPhaseCoherence n ψ = 1 ∧
        0 ≤ simPhaseCoherence n ψ ∧ simPhaseCoherence n ψ ≤ 1) ∧
    (∀ t : ℝ,
        classicalPhaseCoherence t ∈ Set.Ioc (-Real.pi) Real.pi) := by
  constructor
  · intro n ψ hψ
    have h1 : simPhaseCoherence n ψ = 1 := by
      rw [simPhaseCoherence_eq, hψ, one_pow]
    exact ⟨h1, by rw [h1]; norm_num, by rw [h1]⟩
  · intro t
    exact Complex.arg_mem_Ioc _

/-- Witness for C9 at a concrete normalised one-qubit statevector and a
concrete fallback time. -/
theorem claim_C9_witness :
    simPhaseCoherence 1 (fun _ => 1) = 1 ∧
    classicalPhaseCoherence 0 ∈ Set.Ioc (-Real.pi) Real.pi :=
  ⟨(claim_C9_amended.1 1 (fun _ => 1) (by simp)).1,
   claim_C9_amended.2 0⟩

end Aura
